import Mathlib

/-!
Verification of the multi-object wait multiplexer
(InternalWaitForMultipleObjectsEx, src/shared/pal/src/synchmgr/wait.cpp)
against its design specification.

The function is embedded shallowly.  External collaborators (the object
registry, the synchronization manager, the per-object wait controllers)
are modelled by an oracle environment `Env` that fixes the answer of every
external call the function can make: the resolution outcome, the
controller-acquisition outcome, the per-object answers of
CanThreadWaitWithoutBlocking / ReleaseWaitingThreadWithoutBlocking /
RegisterWaitingThread, and the BlockThread outcome.  Error codes are plain
naturals, with 0 playing NO_ERROR exactly as the source compares
`NO_ERROR != palErr`.

Besides the returned DWORD and the last-error value the call sets, the
embedding records the externally observable effects of a run in
`WaitEffects`: how many object references were pinned and released, how
many controllers were obtained and released, which indices were
pre-checked, consumed and registered, and whether the thread blocked.
-/

/-! ## Constants (pal.h) -/

def MAXIMUM_WAIT_OBJECTS : Nat := 64

def MAXIMUM_STACK_WAITOBJ_ARRAY_SIZE : Nat := MAXIMUM_WAIT_OBJECTS / 4

def WAIT_OBJECT_0 : Nat := 0

def WAIT_ABANDONED_0 : Nat := 128

def WAIT_TIMEOUT : Nat := 258

def WAIT_FAILED : Nat := 4294967295

def ERROR_INVALID_HANDLE : Nat := 6

def ERROR_NOT_ENOUGH_MEMORY : Nat := 8

def ERROR_NOT_SUPPORTED : Nat := 50

def ERROR_INVALID_PARAMETER : Nat := 87

def ERROR_INTERNAL_ERROR : Nat := 1359

/-! ## Data model -/

/-- The wakeup reasons reported by IPalSynchronizationManager::BlockThread. -/
inductive ThreadWakeupReason where
  | WaitSucceeded
  | Alerted
  | MutexAbondoned
  | WaitTimeout
  | WaitFailed
deriving DecidableEq

/-- One resolved synchronization object, as seen through its wait
controller: `oid` is the object identity (the IPalObject pointer, used by
the duplicate check), `signaled` and `abandoned` are the two outputs of
CanThreadWaitWithoutBlocking, and the three error fields are the PAL error
codes returned by the three controller calls (0 = NO_ERROR). -/
structure ObjSpec where
  oid : Nat
  signaled : Bool
  abandoned : Bool
  checkErr : Nat
  consumeErr : Nat
  registerErr : Nat
deriving DecidableEq

instance : Inhabited ObjSpec := ⟨⟨0, false, false, 0, 0, 0⟩⟩

/-- The oracle environment: outcomes of every external call.
`resolveErr` is the error of ReferenceMultipleObjectsByHandleArray
(0 = success, in which case `objs` are the pinned objects, one per
handle); `getCtrlsErr` the error of GetSynchWaitControllersForObjects;
`allocOk` whether InternalNewArray succeeds for counts above the stack
threshold; `blockErr`, `blockReason`, `blockIdx` the outcome of
BlockThread (reason and index are meaningful when `blockErr = 0`). -/
structure Env where
  resolveErr : Nat
  objs : List ObjSpec
  getCtrlsErr : Nat
  allocOk : Bool
  blockErr : Nat
  blockReason : ThreadWakeupReason
  blockIdx : Int
deriving DecidableEq

/-- Externally observable effects of one call. -/
structure WaitEffects where
  resolveAttempted : Bool
  pinned : Nat
  unpinned : Nat
  ctrlsObtained : Nat
  ctrlsReleased : Nat
  checked : List Nat
  consumed : List Nat
  registered : List Nat
  blocked : Bool
deriving DecidableEq

def emptyEffects : WaitEffects :=
  { resolveAttempted := false, pinned := 0, unpinned := 0,
    ctrlsObtained := 0, ctrlsReleased := 0,
    checked := [], consumed := [], registered := [], blocked := false }

/-- Effects common to every path past a successful
GetSynchWaitControllersForObjects call. -/
def baseEff (nCount : Nat) : WaitEffects :=
  { resolveAttempted := true, pinned := nCount, unpinned := 0,
    ctrlsObtained := nCount, ctrlsReleased := 0,
    checked := [], consumed := [], registered := [], blocked := false }

/-- Result of one call: the returned DWORD, the last-error value the call
set (none = untouched), and the recorded effects. -/
structure WaitResult where
  dwRet : Nat
  lastError : Option Nat
  eff : WaitEffects
deriving DecidableEq

/-! ## The algorithm, piece by piece -/

/-- The wait-all duplicate detection (wait.cpp lines 145-163): pairwise
pointer comparison of the resolved objects. -/
def dupCheck : List ObjSpec → Bool
  | [] => false
  | o :: rest => rest.any (fun p => p.oid == o.oid) || dupCheck rest

/-- Outcome of the non-blocking pre-check pass (wait.cpp lines 182-206):
the last palErr, the signaled-object count, the last signaled index, the
abandonment flag, and the indices actually passed to
CanThreadWaitWithoutBlocking. -/
structure PreCheckOut where
  palErr : Nat
  cnt : Nat
  idx : Int
  ab : Bool
  checked : List Nat
deriving DecidableEq

/-- The pre-check loop (wait.cpp lines 184-206): for each object in index
order ask CanThreadWaitWithoutBlocking; record abandonment; count the
signaled objects and remember the last signaled index; for wait-any break
at the first signaled object; abort on any controller error. -/
def preCheckLoop (fWAll : Bool) : List ObjSpec → Nat → Nat → Int → Bool → List Nat → PreCheckOut
  | [], _, cnt, idx, ab, checked => ⟨0, cnt, idx, ab, checked⟩
  | o :: rest, i, cnt, idx, ab, checked =>
    if o.checkErr ≠ 0 then ⟨o.checkErr, cnt, idx, ab, checked ++ [i]⟩
    else if o.signaled then
      (if fWAll then
        preCheckLoop fWAll rest (i + 1) (cnt + 1) (Int.ofNat i) (ab || o.abandoned) (checked ++ [i])
      else ⟨0, cnt + 1, Int.ofNat i, ab || o.abandoned, checked ++ [i]⟩)
    else preCheckLoop fWAll rest (i + 1) cnt idx (ab || o.abandoned) (checked ++ [i])

/-- The fast-path consumption loop (wait.cpp lines 234-245):
ReleaseWaitingThreadWithoutBlocking on indices iStart..iStart+len-1,
stopping at the first error; returns the final palErr and the indices
successfully consumed. -/
def consumeRange (objs : List ObjSpec) : Nat → Nat → List Nat → Nat × List Nat
  | _, 0, acc => (0, acc)
  | i, len + 1, acc =>
    if (objs.getD i default).consumeErr ≠ 0 then ((objs.getD i default).consumeErr, acc)
    else consumeRange objs (i + 1) len (acc ++ [i])

/-- The registration loop (wait.cpp lines 258-272): RegisterWaitingThread
on every object in index order, stopping at the first error; returns the
final palErr and the indices successfully registered. -/
def registerLoop : List ObjSpec → Nat → List Nat → Nat × List Nat
  | [], _, acc => (0, acc)
  | o :: rest, i, acc =>
    if o.registerErr ≠ 0 then (o.registerErr, acc)
    else registerLoop rest (i + 1) (acc ++ [i])

/-- The wakeup-reason switch (wait.cpp lines 308-324). -/
def wakeupToRet : ThreadWakeupReason → Nat
  | .WaitSucceeded => WAIT_OBJECT_0
  | .MutexAbondoned => WAIT_ABANDONED_0
  | .WaitTimeout => WAIT_TIMEOUT
  | _ => WAIT_FAILED

/-- The common tail (wait.cpp lines 327-350): for wait-any outcomes of
WAIT_OBJECT_0 / WAIT_ABANDONED_0 add the signaled index after checking it
is nonnegative (a negative index forces WAIT_FAILED with an internal
error); then the cleanup label releases the pinned object references. -/
def waitFinish (fWAll : Bool) (nCount : Nat) (dwRet : Nat) (iSignaledObjIndex : Int)
    (eff : WaitEffects) : WaitResult :=
  if fWAll = false ∧ (dwRet = WAIT_OBJECT_0 ∨ dwRet = WAIT_ABANDONED_0) then
    if iSignaledObjIndex < 0 then
      { dwRet := WAIT_FAILED, lastError := some ERROR_INTERNAL_ERROR,
        eff := { eff with unpinned := eff.unpinned + nCount } }
    else
      { dwRet := (dwRet + iSignaledObjIndex.toNat) % 4294967296, lastError := none,
        eff := { eff with unpinned := eff.unpinned + nCount } }
  else
    { dwRet := dwRet, lastError := none,
      eff := { eff with unpinned := eff.unpinned + nCount } }

/-- Everything from the pre-check pass on (wait.cpp lines 182-350),
entered after the controllers were obtained and the alertable gate was
passed: pre-check, then fast path / zero-timeout path / registration and
blocking, then the index fixup and cleanup. -/
def waitAfterControllers (env : Env) (nCount : Nat) (fWAll : Bool)
    (dwMilliseconds : Nat) : WaitResult :=
  let pc := preCheckLoop fWAll env.objs 0 0 (-1) false []
  if pc.palErr ≠ 0 then
    { dwRet := WAIT_FAILED, lastError := some ERROR_INTERNAL_ERROR,
      eff := { baseEff nCount with
        checked := pc.checked
        ctrlsReleased := nCount
        unpinned := nCount } }
  else if ¬ (pc.cnt = 0 ∨ (fWAll = true ∧ pc.cnt < nCount)) then
    if (if fWAll then (0 : Int) else pc.idx) < 0 then
      { dwRet := WAIT_FAILED, lastError := some ERROR_INTERNAL_ERROR,
        eff := { baseEff nCount with checked := pc.checked, unpinned := nCount } }
    else
      let cr := consumeRange env.objs (if fWAll then 0 else pc.idx.toNat)
        (if fWAll then nCount else 1) []
      if cr.1 ≠ 0 then
        { dwRet := WAIT_FAILED, lastError := some cr.1,
          eff := { baseEff nCount with
          checked := pc.checked
          consumed := cr.2
          ctrlsReleased := nCount
          unpinned := nCount } }
      else
        waitFinish fWAll nCount (if pc.ab then WAIT_ABANDONED_0 else WAIT_OBJECT_0) pc.idx
          { baseEff nCount with
            checked := pc.checked
            consumed := cr.2
            ctrlsReleased := nCount }
  else if dwMilliseconds = 0 then
    waitFinish fWAll nCount WAIT_TIMEOUT pc.idx
      { baseEff nCount with checked := pc.checked, ctrlsReleased := nCount }
  else
    let rr := registerLoop env.objs 0 []
    if rr.1 ≠ 0 then
      { dwRet := WAIT_FAILED, lastError := some rr.1,
        eff := { baseEff nCount with
          checked := pc.checked
          registered := rr.2
          ctrlsReleased := nCount
          unpinned := nCount } }
    else if env.blockErr ≠ 0 then
      { dwRet := WAIT_FAILED, lastError := some env.blockErr,
        eff := { baseEff nCount with
          checked := pc.checked
          registered := rr.2
          ctrlsReleased := nCount
          blocked := true
          unpinned := nCount } }
    else
      waitFinish fWAll nCount (wakeupToRet env.blockReason) env.blockIdx
        { baseEff nCount with
          checked := pc.checked
          registered := rr.2
          ctrlsReleased := nCount
          blocked := true }

/-- InternalWaitForMultipleObjectsEx (wait.cpp lines 71-360).  Validation
of the count, the stack/heap array sizing, handle resolution, the
multi-object NOT_SUPPORTED gate, the wait-all duplicate check, controller
acquisition, the alertable gate (which jumps straight to the unpin label,
past the controller-release loop), and then `waitAfterControllers`. -/
def InternalWaitForMultipleObjectsEx (env : Env) (nCount : Nat) (bWaitAll : Bool)
    (dwMilliseconds : Nat) (bAlertable : Bool) : WaitResult :=
  if nCount = 0 ∨ MAXIMUM_WAIT_OBJECTS < nCount then
    { dwRet := WAIT_FAILED, lastError := some ERROR_INVALID_PARAMETER, eff := emptyEffects }
  else if MAXIMUM_STACK_WAITOBJ_ARRAY_SIZE < nCount ∧ env.allocOk = false then
    { dwRet := WAIT_FAILED, lastError := some ERROR_NOT_ENOUGH_MEMORY, eff := emptyEffects }
  else if env.resolveErr ≠ 0 then
    { dwRet := WAIT_FAILED,
      lastError := some (if env.resolveErr = ERROR_INVALID_HANDLE then ERROR_INVALID_HANDLE
                         else ERROR_INTERNAL_ERROR),
      eff := { emptyEffects with resolveAttempted := true } }
  else if 1 < nCount then
    { dwRet := WAIT_FAILED, lastError := some ERROR_NOT_SUPPORTED,
      eff := { emptyEffects with
        resolveAttempted := true
        pinned := nCount
        unpinned := nCount } }
  else if (if nCount = 1 then false else bWaitAll) = true ∧ dupCheck env.objs = true then
    { dwRet := WAIT_FAILED, lastError := some ERROR_INVALID_PARAMETER,
      eff := { emptyEffects with
        resolveAttempted := true
        pinned := nCount
        unpinned := nCount } }
  else if env.getCtrlsErr ≠ 0 then
    { dwRet := WAIT_FAILED, lastError := some ERROR_INTERNAL_ERROR,
      eff := { emptyEffects with
        resolveAttempted := true
        pinned := nCount
        unpinned := nCount } }
  else if bAlertable = true then
    { dwRet := WAIT_FAILED, lastError := some ERROR_INTERNAL_ERROR,
      eff := { emptyEffects with
        resolveAttempted := true
        pinned := nCount
        unpinned := nCount
        ctrlsObtained := nCount } }
  else
    waitAfterControllers env nCount (if nCount = 1 then false else bWaitAll) dwMilliseconds

/-! ## Sanity examples (concrete evaluation of the embedding) -/

def sigObj : ObjSpec := ⟨1, true, false, 0, 0, 0⟩

def unsigObj : ObjSpec := ⟨2, false, false, 0, 0, 0⟩

def envOf (objs : List ObjSpec) : Env :=
  { resolveErr := 0, objs := objs, getCtrlsErr := 0, allocOk := true,
    blockErr := 0, blockReason := .WaitSucceeded, blockIdx := 0 }

example :
    (InternalWaitForMultipleObjectsEx (envOf [sigObj]) 1 false 100 false).dwRet
      = WAIT_OBJECT_0 := by decide

example :
    (InternalWaitForMultipleObjectsEx (envOf [unsigObj]) 1 false 0 false).dwRet
      = WAIT_TIMEOUT := by decide

example :
    (InternalWaitForMultipleObjectsEx (envOf [sigObj, sigObj]) 2 true 100 false).lastError
      = some ERROR_NOT_SUPPORTED := by decide

example :
    (InternalWaitForMultipleObjectsEx (envOf [unsigObj]) 1 false 100 false).dwRet
      = WAIT_OBJECT_0 ∧
    (InternalWaitForMultipleObjectsEx (envOf [unsigObj]) 1 false 100 false).eff.blocked
      = true := by decide

/-! ## Helper lemmas -/

/-- For a count-1, non-alertable request that resolves and obtains its
controller, the call reduces to the post-controller phase with the
wait-all flag forced to false. -/
theorem wait_count_one (env : Env) (bWaitAll : Bool) (t : Nat)
    (hres : env.resolveErr = 0) (hctl : env.getCtrlsErr = 0) :
    InternalWaitForMultipleObjectsEx env 1 bWaitAll t false =
      waitAfterControllers env 1 false t := by
  unfold InternalWaitForMultipleObjectsEx
  rw [if_neg (by decide : ¬ ((1 : Nat) = 0 ∨ MAXIMUM_WAIT_OBJECTS < 1))]
  rw [if_neg (fun h => absurd h.1 (by decide))]
  rw [if_neg (by simp [hres])]
  rw [if_neg (by decide : ¬ ((1 : Nat) < 1))]
  rw [if_neg (fun h => by simp at h)]
  rw [if_neg (by simp [hctl])]
  rw [if_neg (by decide : ¬ (false = true))]
  rfl

/-- For a count-1, alertable request that resolves and obtains its
controller, the call stops at the alertable gate with an internal error,
the controller left unreleased. -/
theorem wait_count_one_alertable (env : Env) (bWaitAll : Bool) (t : Nat)
    (hres : env.resolveErr = 0) (hctl : env.getCtrlsErr = 0) :
    InternalWaitForMultipleObjectsEx env 1 bWaitAll t true =
      { dwRet := WAIT_FAILED, lastError := some ERROR_INTERNAL_ERROR,
        eff := { emptyEffects with
          resolveAttempted := true
          pinned := 1
          unpinned := 1
          ctrlsObtained := 1 } } := by
  unfold InternalWaitForMultipleObjectsEx
  rw [if_neg (by decide : ¬ ((1 : Nat) = 0 ∨ MAXIMUM_WAIT_OBJECTS < 1))]
  rw [if_neg (fun h => absurd h.1 (by decide))]
  rw [if_neg (by simp [hres])]
  rw [if_neg (by decide : ¬ ((1 : Nat) < 1))]
  rw [if_neg (fun h => by simp at h)]
  rw [if_neg (by simp [hctl])]
  rw [if_pos rfl]

/-! ## Claims -/

/-- Claim C1: for every wait request with count > 1, once all handles have
been resolved, the call fails with WAIT_FAILED and last-error
ERROR_NOT_SUPPORTED, for both wait-all and wait-any, and regardless of the
object states (in particular even if all objects are already signaled).
No pre-check call is made, no signal is consumed, no waiter is registered,
no controller is obtained, and the thread never blocks. -/
theorem c1_count_gt_one_not_supported (env : Env) (nCount : Nat) (bWaitAll : Bool)
    (t : Nat) (a : Bool)
    (h1 : 1 < nCount) (h64 : nCount ≤ MAXIMUM_WAIT_OBJECTS)
    (halloc : env.allocOk = true) (hres : env.resolveErr = 0) :
    (InternalWaitForMultipleObjectsEx env nCount bWaitAll t a).dwRet = WAIT_FAILED ∧
    (InternalWaitForMultipleObjectsEx env nCount bWaitAll t a).lastError
      = some ERROR_NOT_SUPPORTED ∧
    (InternalWaitForMultipleObjectsEx env nCount bWaitAll t a).eff.checked = [] ∧
    (InternalWaitForMultipleObjectsEx env nCount bWaitAll t a).eff.consumed = [] ∧
    (InternalWaitForMultipleObjectsEx env nCount bWaitAll t a).eff.registered = [] ∧
    (InternalWaitForMultipleObjectsEx env nCount bWaitAll t a).eff.ctrlsObtained = 0 ∧
    (InternalWaitForMultipleObjectsEx env nCount bWaitAll t a).eff.blocked = false := by
  have h64' : nCount ≤ 64 := h64
  have h0 : ¬ (nCount = 0 ∨ MAXIMUM_WAIT_OBJECTS < nCount) := by
    show ¬ (nCount = 0 ∨ 64 < nCount)
    omega
  unfold InternalWaitForMultipleObjectsEx
  rw [if_neg h0]
  rw [if_neg (by simp [halloc])]
  rw [if_neg (by simp [hres])]
  rw [if_pos h1]
  exact ⟨rfl, rfl, rfl, rfl, rfl, rfl, rfl⟩

theorem c1_count_gt_one_not_supported_witness :
    1 < 2 ∧ 2 ≤ MAXIMUM_WAIT_OBJECTS ∧ (envOf [sigObj, sigObj]).allocOk = true ∧
    (envOf [sigObj, sigObj]).resolveErr = 0 ∧
    (InternalWaitForMultipleObjectsEx (envOf [sigObj, sigObj]) 2 true 100 false).lastError
      = some ERROR_NOT_SUPPORTED :=
  ⟨by decide, by decide, by decide, by decide,
   (c1_count_gt_one_not_supported (envOf [sigObj, sigObj]) 2 true 100 false
     (by decide) (by decide) (by decide) (by decide)).2.1⟩

/-- Claim C2: for every count outside [1, 64] the call fails with
WAIT_FAILED and last-error ERROR_INVALID_PARAMETER and acquires nothing:
resolution is never attempted, no object is pinned, no controller is
obtained (the result equals the empty-effects failure outcome). -/
theorem c2_invalid_count_acquires_nothing (env : Env) (bWaitAll : Bool) (t : Nat)
    (a : Bool) (nCount : Nat) (h : nCount = 0 ∨ MAXIMUM_WAIT_OBJECTS < nCount) :
    InternalWaitForMultipleObjectsEx env nCount bWaitAll t a =
      { dwRet := WAIT_FAILED, lastError := some ERROR_INVALID_PARAMETER,
        eff := emptyEffects } := by
  unfold InternalWaitForMultipleObjectsEx
  rw [if_pos h]

theorem c2_invalid_count_acquires_nothing_witness :
    ((65 : Nat) = 0 ∨ MAXIMUM_WAIT_OBJECTS < 65) ∧
    InternalWaitForMultipleObjectsEx (envOf [sigObj]) 65 false 100 false =
      { dwRet := WAIT_FAILED, lastError := some ERROR_INVALID_PARAMETER,
        eff := emptyEffects } :=
  ⟨by decide,
   c2_invalid_count_acquires_nothing (envOf [sigObj]) false 100 false 65 (by decide)⟩

/-- Claim C3 (code bug witness): the alertable rejection jumps straight to
the object-unpin label and skips the controller-release loop, so on that
exit path an obtained controller is never released, while the pinned
object reference is still released; this contradicts the claim that every
obtained controller is released on every exit path. -/
theorem c3_alertable_path_leaks_controller :
    (InternalWaitForMultipleObjectsEx (envOf [unsigObj]) 1 false 100 true).eff.ctrlsObtained
      = 1 ∧
    (InternalWaitForMultipleObjectsEx (envOf [unsigObj]) 1 false 100 true).eff.ctrlsReleased
      = 0 ∧
    (InternalWaitForMultipleObjectsEx (envOf [unsigObj]) 1 false 100 true).eff.pinned = 1 ∧
    (InternalWaitForMultipleObjectsEx (envOf [unsigObj]) 1 false 100 true).eff.unpinned
      = 1 ∧
    (InternalWaitForMultipleObjectsEx (envOf [unsigObj]) 1 false 100 true).dwRet
      = WAIT_FAILED := by
  decide

/-- Claim C4 counterexample: a count-1 alertable request that reaches the
alertable gate is rejected with an internal error only after a wait
controller has already been obtained, refuting the claim that the
rejection is a validation error detected before any controller is
acquired. -/
theorem c4_rejection_not_before_controllers_cex :
    (InternalWaitForMultipleObjectsEx (envOf [sigObj]) 1 false 100 true).lastError
      = some ERROR_INTERNAL_ERROR ∧
    (InternalWaitForMultipleObjectsEx (envOf [sigObj]) 1 false 100 true).eff.ctrlsObtained
      ≠ 0 := by
  decide

/-- Claim C4 (amended): a count-1 request with the alertable flag set that
passes count validation, resolution and controller acquisition fails with
WAIT_FAILED and last-error internal error; the rejection happens after
the wait controller was obtained from the Synchronization Manager and
before any pre-check, and the obtained controller is not released. -/
theorem c4_alertable_rejected_after_acquire (env : Env) (t : Nat)
    (hres : env.resolveErr = 0) (hctl : env.getCtrlsErr = 0) :
    (InternalWaitForMultipleObjectsEx env 1 false t true).dwRet = WAIT_FAILED ∧
    (InternalWaitForMultipleObjectsEx env 1 false t true).lastError
      = some ERROR_INTERNAL_ERROR ∧
    (InternalWaitForMultipleObjectsEx env 1 false t true).eff.ctrlsObtained = 1 ∧
    (InternalWaitForMultipleObjectsEx env 1 false t true).eff.checked = [] ∧
    (InternalWaitForMultipleObjectsEx env 1 false t true).eff.ctrlsReleased = 0 := by
  rw [wait_count_one_alertable env false t hres hctl]
  exact ⟨rfl, rfl, rfl, rfl, rfl⟩

theorem c4_alertable_rejected_after_acquire_witness :
    (envOf [unsigObj]).resolveErr = 0 ∧ (envOf [unsigObj]).getCtrlsErr = 0 ∧
    (InternalWaitForMultipleObjectsEx (envOf [unsigObj]) 1 false 50 true).eff.ctrlsReleased
      = 0 :=
  ⟨rfl, rfl,
   (c4_alertable_rejected_after_acquire (envOf [unsigObj]) 50 rfl rfl).2.2.2.2⟩

/-- Claim C8: with count 1 the wait-all flag has no observable effect:
the two calls return identical results, including all recorded effects. -/
theorem c8_count_one_waitall_irrelevant (env : Env) (t : Nat) (a : Bool) :
    InternalWaitForMultipleObjectsEx env 1 true t a =
    InternalWaitForMultipleObjectsEx env 1 false t a := rfl

/-- Claim C5: when the pre-check finds blocking necessary (count-1 request
on a not-signaled object) and the requested timeout is zero, the outcome
is WAIT_TIMEOUT, no waiter is registered, the blocking primitive is never
invoked, no signal is consumed, and no error is set; the full result is a
pure poll, so repeating the call on a never-signaled object returns
WAIT_TIMEOUT every time without mutating any object state. -/
theorem c5_zero_timeout_polls (env : Env) (o : ObjSpec) (bWaitAll : Bool)
    (hobjs : env.objs = [o]) (hres : env.resolveErr = 0) (hctl : env.getCtrlsErr = 0)
    (hchk : o.checkErr = 0) (hsig : o.signaled = false) :
    InternalWaitForMultipleObjectsEx env 1 bWaitAll 0 false =
      { dwRet := WAIT_TIMEOUT, lastError := none,
        eff := { baseEff 1 with
          checked := [0]
          ctrlsReleased := 1
          unpinned := 1 } } := by
  rw [wait_count_one env bWaitAll 0 hres hctl]
  unfold waitAfterControllers
  rw [hobjs]
  simp [preCheckLoop, hchk, hsig, waitFinish, baseEff, WAIT_TIMEOUT, WAIT_OBJECT_0,
        WAIT_ABANDONED_0]

theorem c5_zero_timeout_polls_witness :
    (envOf [unsigObj]).objs = [unsigObj] ∧ unsigObj.signaled = false ∧
    InternalWaitForMultipleObjectsEx (envOf [unsigObj]) 1 false 0 false =
      { dwRet := WAIT_TIMEOUT, lastError := none,
        eff := { baseEff 1 with
          checked := [0]
          ctrlsReleased := 1
          unpinned := 1 } } :=
  ⟨rfl, rfl,
   c5_zero_timeout_polls (envOf [unsigObj]) unsigObj false rfl rfl rfl rfl rfl⟩

/-- Claim C9: on the fast path (count-1 request whose object is signaled at
pre-check, consumed without error), exactly the consumed object determines
the abandoned qualifier: the result is WAIT_ABANDONED_0 precisely when the
consumed object reported abandonment, and WAIT_OBJECT_0 precisely when it
did not, with the consumption touching only that object. -/
theorem c9_fastpath_abandoned_iff_consumed (env : Env) (o : ObjSpec) (t : Nat)
    (hobjs : env.objs = [o]) (hres : env.resolveErr = 0) (hctl : env.getCtrlsErr = 0)
    (hchk : o.checkErr = 0) (hsig : o.signaled = true) (hcon : o.consumeErr = 0) :
    (InternalWaitForMultipleObjectsEx env 1 false t false).eff.consumed = [0] ∧
    ((InternalWaitForMultipleObjectsEx env 1 false t false).dwRet = WAIT_ABANDONED_0 ↔
      o.abandoned = true) ∧
    ((InternalWaitForMultipleObjectsEx env 1 false t false).dwRet = WAIT_OBJECT_0 ↔
      o.abandoned = false) := by
  rw [wait_count_one env false t hres hctl]
  unfold waitAfterControllers
  rw [hobjs]
  cases hab : o.abandoned <;>
    simp [preCheckLoop, hchk, hsig, hcon, hab, consumeRange, waitFinish,
          WAIT_ABANDONED_0, WAIT_OBJECT_0]

theorem c9_fastpath_abandoned_iff_consumed_witness :
    sigObj.signaled = true ∧ sigObj.abandoned = false ∧
    (InternalWaitForMultipleObjectsEx (envOf [sigObj]) 1 false 100 false).eff.consumed
      = [0] ∧
    (InternalWaitForMultipleObjectsEx (envOf [sigObj]) 1 false 100 false).dwRet
      = WAIT_OBJECT_0 :=
  ⟨rfl, rfl,
   (c9_fastpath_abandoned_iff_consumed (envOf [sigObj]) sigObj 100
      rfl rfl rfl rfl rfl rfl).1,
   ((c9_fastpath_abandoned_iff_consumed (envOf [sigObj]) sigObj 100
      rfl rfl rfl rfl rfl rfl).2.2).mpr rfl⟩

/-- The environment exhibiting the missing upper-bound validation: the
Synchronization Manager wakes the thread with success but reports
signaled index 5 on a count-1 wait. -/
def badIdxEnv : Env :=
  { resolveErr := 0, objs := [unsigObj], getCtrlsErr := 0, allocOk := true,
    blockErr := 0, blockReason := .WaitSucceeded, blockIdx := 5 }

/-- Claim C7 counterexample: a reported satisfied index at or above count
is not forced to a failed outcome: with count 1 and reported index 5 the
call returns WAIT_OBJECT_0 + 5 and sets no internal error, instead of
returning WAIT_FAILED as the claim requires for an index outside
[0, count). -/
theorem c7_out_of_range_index_propagates_cex :
    (InternalWaitForMultipleObjectsEx badIdxEnv 1 false 100 false).dwRet
      = WAIT_OBJECT_0 + 5 ∧
    ¬ (5 < 1) ∧
    (InternalWaitForMultipleObjectsEx badIdxEnv 1 false 100 false).dwRet ≠ WAIT_FAILED ∧
    (InternalWaitForMultipleObjectsEx badIdxEnv 1 false 100 false).lastError
      ≠ some ERROR_INTERNAL_ERROR := by
  decide

/-- Claim C7 (amended): after a block wakeup on a count-1 wait-any with a
satisfied (WaitSucceeded) or satisfied-abandoned (MutexAbondoned) reason,
only a negative reported index is validated: a negative index forces
WAIT_FAILED with an internal error, while any nonnegative index,
including indices at or above count, is added onto the corresponding base
(WAIT_OBJECT_0 or WAIT_ABANDONED_0) unchecked (the upper bound is only a
debug assertion). -/
theorem c7_negative_index_forces_failed (env : Env) (o : ObjSpec) (t : Nat)
    (hobjs : env.objs = [o]) (hres : env.resolveErr = 0) (hctl : env.getCtrlsErr = 0)
    (hchk : o.checkErr = 0) (hsig : o.signaled = false) (hreg : o.registerErr = 0)
    (ht : t ≠ 0) (hblk : env.blockErr = 0)
    (hwr : env.blockReason = .WaitSucceeded ∨ env.blockReason = .MutexAbondoned) :
    (env.blockIdx < 0 →
      (InternalWaitForMultipleObjectsEx env 1 false t false).dwRet = WAIT_FAILED ∧
      (InternalWaitForMultipleObjectsEx env 1 false t false).lastError
        = some ERROR_INTERNAL_ERROR) ∧
    (0 ≤ env.blockIdx →
      (InternalWaitForMultipleObjectsEx env 1 false t false).dwRet
        = (wakeupToRet env.blockReason + env.blockIdx.toNat) % 4294967296 ∧
      (InternalWaitForMultipleObjectsEx env 1 false t false).lastError = none) := by
  rw [wait_count_one env false t hres hctl]
  unfold waitAfterControllers
  rw [hobjs]
  rcases hwr with hwr | hwr
  · constructor
    · intro hneg
      simp [preCheckLoop, hchk, hsig, hreg, ht, hblk, hwr, registerLoop, wakeupToRet,
            waitFinish, hneg, WAIT_OBJECT_0, WAIT_ABANDONED_0]
    · intro hpos
      have hneg : ¬ (env.blockIdx < 0) := by omega
      simp [preCheckLoop, hchk, hsig, hreg, ht, hblk, hwr, registerLoop, wakeupToRet,
            waitFinish, hneg, WAIT_OBJECT_0, WAIT_ABANDONED_0]
  · constructor
    · intro hneg
      simp [preCheckLoop, hchk, hsig, hreg, ht, hblk, hwr, registerLoop, wakeupToRet,
            waitFinish, hneg, WAIT_OBJECT_0, WAIT_ABANDONED_0]
    · intro hpos
      have hneg : ¬ (env.blockIdx < 0) := by omega
      simp [preCheckLoop, hchk, hsig, hreg, ht, hblk, hwr, registerLoop, wakeupToRet,
            waitFinish, hneg, WAIT_OBJECT_0, WAIT_ABANDONED_0]

theorem c7_negative_index_forces_failed_witness :
    ((-1 : Int) < 0) ∧
    (InternalWaitForMultipleObjectsEx
        { resolveErr := 0, objs := [unsigObj], getCtrlsErr := 0, allocOk := true,
          blockErr := 0, blockReason := .MutexAbondoned, blockIdx := -1 }
        1 false 100 false).dwRet = WAIT_FAILED ∧
    (InternalWaitForMultipleObjectsEx
        { resolveErr := 0, objs := [unsigObj], getCtrlsErr := 0, allocOk := true,
          blockErr := 0, blockReason := .WaitSucceeded, blockIdx := -1 }
        1 false 100 false).dwRet = WAIT_FAILED :=
  ⟨by decide,
   ((c7_negative_index_forces_failed
      { resolveErr := 0, objs := [unsigObj], getCtrlsErr := 0, allocOk := true,
        blockErr := 0, blockReason := .MutexAbondoned, blockIdx := -1 }
      unsigObj 100 rfl rfl rfl rfl rfl rfl (by decide) rfl (Or.inr rfl)).1 (by decide)).1,
   ((c7_negative_index_forces_failed
      { resolveErr := 0, objs := [unsigObj], getCtrlsErr := 0, allocOk := true,
        blockErr := 0, blockReason := .WaitSucceeded, blockIdx := -1 }
      unsigObj 100 rfl rfl rfl rfl rfl rfl (by decide) rfl (Or.inl rfl)).1 (by decide)).1⟩

/-- Definition following the wording of the spec (the wait-any tie-break):
the lowest index whose object is signaled.  The pre-check loop of the
source is compared against this. -/
def lowestSignaledIndex : List ObjSpec → Option Nat
  | [] => none
  | o :: rest => if o.signaled then some 0 else (lowestSignaledIndex rest).map (· + 1)

/-- The wait-any pre-check loop stops at the lowest signaled index: for
any starting accumulator state, if every check succeeds and some object is
signaled, the loop returns error 0, reports exactly the lowest signaled
index (offset by the starting position), scans exactly the prefix up to
and including that index, and counts exactly one signaled object. -/
theorem preCheckLoop_any_lowest (objs : List ObjSpec) :
    ∀ (i cnt : Nat) (idx : Int) (ab : Bool) (checked : List Nat) (k : Nat),
    (∀ o ∈ objs, o.checkErr = 0) →
    lowestSignaledIndex objs = some k →
    (preCheckLoop false objs i cnt idx ab checked).palErr = 0 ∧
    (preCheckLoop false objs i cnt idx ab checked).idx = Int.ofNat (i + k) ∧
    (preCheckLoop false objs i cnt idx ab checked).checked
      = checked ++ List.range' i (k + 1) ∧
    (preCheckLoop false objs i cnt idx ab checked).cnt = cnt + 1 := by
  induction objs with
  | nil =>
    intro i cnt idx ab checked k _ hk
    simp [lowestSignaledIndex] at hk
  | cons o rest ih =>
    intro i cnt idx ab checked k h hk
    have ho : o.checkErr = 0 := h o (List.mem_cons_self o rest)
    by_cases hs : o.signaled = true
    · have hk0 : k = 0 := by
        simp [lowestSignaledIndex, hs] at hk
        omega
      subst hk0
      simp [preCheckLoop, ho, hs, List.range']
    · have hs' : o.signaled = false := by
        cases hco : o.signaled
        · rfl
        · exact absurd hco hs
      have hk' : (lowestSignaledIndex rest).map (· + 1) = some k := by
        simpa [lowestSignaledIndex, hs'] using hk
      rcases Option.map_eq_some'.mp hk' with ⟨j, hj, hjk⟩
      have step : preCheckLoop false (o :: rest) i cnt idx ab checked
          = preCheckLoop false rest (i + 1) cnt idx (ab || o.abandoned) (checked ++ [i]) := by
        simp [preCheckLoop, ho, hs']
      have IH := ih (i + 1) cnt idx (ab || o.abandoned) (checked ++ [i]) j
        (fun p hp => h p (List.mem_cons_of_mem _ hp)) hj
      rw [step]
      refine ⟨IH.1, ?_, ?_, IH.2.2.2⟩
      · rw [IH.2.1]
        congr 1
        omega
      · rw [IH.2.2.1]
        subst hjk
        rw [List.append_assoc]
        rfl

/-- Claim C6: for a wait-any pre-check in which some object is signaled
(and every check succeeds), the scan proceeds in index order and stops at
the first satisfied object, the index reported is the lowest signaled
index, and the fast-path consumption call issued by the function touches
exactly that one object; moreover on the reachable count-1 instance of
the program, the scan is exactly [0] and exactly object 0 is consumed. -/
theorem c6_wait_any_lowest_index :
    (∀ (objs : List ObjSpec) (k : Nat),
      (∀ o ∈ objs, o.checkErr = 0) →
      lowestSignaledIndex objs = some k →
      (objs.getD k default).consumeErr = 0 →
      (preCheckLoop false objs 0 0 (-1) false []).palErr = 0 ∧
      (preCheckLoop false objs 0 0 (-1) false []).idx = Int.ofNat k ∧
      (preCheckLoop false objs 0 0 (-1) false []).checked = List.range' 0 (k + 1) ∧
      consumeRange objs k 1 [] = (0, [k])) ∧
    (∀ (env : Env) (o : ObjSpec) (t : Nat),
      env.objs = [o] → env.resolveErr = 0 → env.getCtrlsErr = 0 →
      o.checkErr = 0 → o.signaled = true → o.consumeErr = 0 →
      (InternalWaitForMultipleObjectsEx env 1 false t false).eff.checked = [0] ∧
      (InternalWaitForMultipleObjectsEx env 1 false t false).eff.consumed = [0]) := by
  constructor
  · intro objs k h hk hcon
    have main := preCheckLoop_any_lowest objs 0 0 (-1) false [] k h hk
    refine ⟨main.1, by simpa using main.2.1, by simpa using main.2.2.1, ?_⟩
    simp [consumeRange]
    simpa using hcon
  · intro env o t hobjs hres hctl hchk hsig hcon
    rw [wait_count_one env false t hres hctl]
    unfold waitAfterControllers
    rw [hobjs]
    cases hab : o.abandoned <;>
      simp [preCheckLoop, hchk, hsig, hcon, hab, consumeRange, waitFinish,
            WAIT_ABANDONED_0, WAIT_OBJECT_0]

theorem c6_wait_any_lowest_index_witness :
    (∀ o ∈ [unsigObj, sigObj], o.checkErr = 0) ∧
    lowestSignaledIndex [unsigObj, sigObj] = some 1 ∧
    (preCheckLoop false [unsigObj, sigObj] 0 0 (-1) false []).idx = Int.ofNat 1 ∧
    (preCheckLoop false [unsigObj, sigObj] 0 0 (-1) false []).checked
      = List.range' 0 2 ∧
    consumeRange [unsigObj, sigObj] 1 1 [] = (0, [1]) ∧
    (InternalWaitForMultipleObjectsEx (envOf [sigObj]) 1 false 100 false).eff.consumed
      = [0] :=
  ⟨by decide, by decide,
   (c6_wait_any_lowest_index.1 [unsigObj, sigObj] 1 (by decide) (by decide)
      (by decide)).2.1,
   (c6_wait_any_lowest_index.1 [unsigObj, sigObj] 1 (by decide) (by decide)
      (by decide)).2.2.1,
   (c6_wait_any_lowest_index.1 [unsigObj, sigObj] 1 (by decide) (by decide)
      (by decide)).2.2.2,
   (c6_wait_any_lowest_index.2 (envOf [sigObj]) sigObj 100 rfl rfl rfl rfl rfl rfl).2⟩

/-- The four result-code families of the wait API. -/
def validRet (nCount d : Nat) : Prop :=
  (∃ i, i < nCount ∧ d = WAIT_OBJECT_0 + i) ∨
  (∃ i, i < nCount ∧ d = WAIT_ABANDONED_0 + i) ∨
  d = WAIT_TIMEOUT ∨ d = WAIT_FAILED

theorem validRet_failed (n : Nat) : validRet n WAIT_FAILED :=
  Or.inr (Or.inr (Or.inr rfl))

theorem validRet_timeout (n : Nat) : validRet n WAIT_TIMEOUT :=
  Or.inr (Or.inr (Or.inl rfl))

theorem validRet_obj0 (n : Nat) (h : 0 < n) : validRet n WAIT_OBJECT_0 :=
  Or.inl ⟨0, h, by simp⟩

theorem validRet_ab0 (n : Nat) (h : 0 < n) : validRet n WAIT_ABANDONED_0 :=
  Or.inr (Or.inl ⟨0, h, by simp⟩)

/-- Any request whose count is not 1 returns WAIT_FAILED: counts 0 and
above 64 fail validation, and counts above 1 are rejected as not
supported (or fail earlier at allocation or resolution). -/
theorem wait_ne_one_failed (env : Env) (nCount : Nat) (bWaitAll : Bool) (t : Nat)
    (a : Bool) (h : nCount ≠ 1) :
    (InternalWaitForMultipleObjectsEx env nCount bWaitAll t a).dwRet = WAIT_FAILED := by
  by_cases h0 : nCount = 0 ∨ MAXIMUM_WAIT_OBJECTS < nCount
  · unfold InternalWaitForMultipleObjectsEx
    rw [if_pos h0]
  · have h2 : 1 < nCount := by
      have hnz : ¬ (nCount = 0) := fun hc => h0 (Or.inl hc)
      omega
    unfold InternalWaitForMultipleObjectsEx
    rw [if_neg h0]
    by_cases hA : MAXIMUM_STACK_WAITOBJ_ARRAY_SIZE < nCount ∧ env.allocOk = false
    · rw [if_pos hA]
    · rw [if_neg hA]
      by_cases hr : env.resolveErr ≠ 0
      · rw [if_pos hr]
      · rw [if_neg hr, if_pos h2]

/-- A count-1 request whose handle resolution fails returns WAIT_FAILED. -/
theorem wait_one_resolve_err (env : Env) (bWaitAll : Bool) (t : Nat) (a : Bool)
    (hres : env.resolveErr ≠ 0) :
    (InternalWaitForMultipleObjectsEx env 1 bWaitAll t a).dwRet = WAIT_FAILED := by
  unfold InternalWaitForMultipleObjectsEx
  rw [if_neg (by decide : ¬ ((1 : Nat) = 0 ∨ MAXIMUM_WAIT_OBJECTS < 1))]
  rw [if_neg (fun hh => absurd hh.1 (by decide))]
  rw [if_pos hres]

/-- A count-1 request whose controller acquisition fails returns
WAIT_FAILED. -/
theorem wait_one_ctrl_err (env : Env) (bWaitAll : Bool) (t : Nat) (a : Bool)
    (hres : env.resolveErr = 0) (hctl : env.getCtrlsErr ≠ 0) :
    (InternalWaitForMultipleObjectsEx env 1 bWaitAll t a).dwRet = WAIT_FAILED := by
  unfold InternalWaitForMultipleObjectsEx
  rw [if_neg (by decide : ¬ ((1 : Nat) = 0 ∨ MAXIMUM_WAIT_OBJECTS < 1))]
  rw [if_neg (fun hh => absurd hh.1 (by decide))]
  rw [if_neg (by simp [hres])]
  rw [if_neg (by decide : ¬ ((1 : Nat) < 1))]
  rw [if_neg (fun hh => by simp at hh)]
  rw [if_pos hctl]

/-- On a count-1 request the post-controller phase always lands in one of
the four result-code families, provided the manager reports an in-range
index on wakeup. -/
theorem waitAfterControllers_one_valid (env : Env) (o : ObjSpec) (t : Nat)
    (hobjs : env.objs = [o]) (hidx : 0 ≤ env.blockIdx ∧ env.blockIdx < 1) :
    validRet 1 (waitAfterControllers env 1 false t).dwRet := by
  have hidx0 : env.blockIdx = 0 := by omega
  unfold waitAfterControllers
  rw [hobjs]
  by_cases hchk : o.checkErr = 0
  · by_cases hsig : o.signaled = true
    · by_cases hcon : o.consumeErr = 0
      · cases hab : o.abandoned
        · simp [preCheckLoop, hchk, hsig, hcon, hab, consumeRange, waitFinish,
                WAIT_ABANDONED_0, WAIT_OBJECT_0]
          exact validRet_obj0 1 (by omega)
        · simp [preCheckLoop, hchk, hsig, hcon, hab, consumeRange, waitFinish,
                WAIT_ABANDONED_0, WAIT_OBJECT_0]
          exact validRet_ab0 1 (by omega)
      · simp [preCheckLoop, hchk, hsig, hcon, consumeRange]
        exact validRet_failed 1
    · have hsig' : o.signaled = false := by
        cases hcs : o.signaled
        · rfl
        · exact absurd hcs hsig
      by_cases ht : t = 0
      · simp [preCheckLoop, hchk, hsig', ht, waitFinish, WAIT_TIMEOUT, WAIT_OBJECT_0,
              WAIT_ABANDONED_0]
        exact validRet_timeout 1
      · by_cases hreg : o.registerErr = 0
        · by_cases hblk : env.blockErr = 0
          · cases hwr : env.blockReason with
            | WaitSucceeded =>
              simp [preCheckLoop, hchk, hsig', ht, registerLoop, hreg, hblk, hidx0,
                    wakeupToRet, waitFinish, WAIT_OBJECT_0, WAIT_ABANDONED_0]
              exact validRet_obj0 1 (by omega)
            | Alerted =>
              simp [preCheckLoop, hchk, hsig', ht, registerLoop, hreg, hblk, hidx0,
                    wakeupToRet, waitFinish, WAIT_OBJECT_0, WAIT_ABANDONED_0,
                    WAIT_FAILED]
              exact validRet_failed 1
            | MutexAbondoned =>
              simp [preCheckLoop, hchk, hsig', ht, registerLoop, hreg, hblk, hidx0,
                    wakeupToRet, waitFinish, WAIT_OBJECT_0, WAIT_ABANDONED_0]
              exact validRet_ab0 1 (by omega)
            | WaitTimeout =>
              simp [preCheckLoop, hchk, hsig', ht, registerLoop, hreg, hblk, hidx0,
                    wakeupToRet, waitFinish, WAIT_OBJECT_0, WAIT_ABANDONED_0,
                    WAIT_TIMEOUT]
              exact validRet_timeout 1
            | WaitFailed =>
              simp [preCheckLoop, hchk, hsig', ht, registerLoop, hreg, hblk, hidx0,
                    wakeupToRet, waitFinish, WAIT_OBJECT_0, WAIT_ABANDONED_0,
                    WAIT_FAILED]
              exact validRet_failed 1
          · simp [preCheckLoop, hchk, hsig', ht, registerLoop, hreg, hblk]
            exact validRet_failed 1
        · simp [preCheckLoop, hchk, hsig', ht, registerLoop, hreg]
          exact validRet_failed 1
  · simp [preCheckLoop, hchk]
    exact validRet_failed 1

/-- Claim C10 counterexample: the returned code is not always in one of
the four families.  When the Synchronization Manager wakes a count-1 wait
with success but reports index 5, the call returns 5, which is neither
WAIT_OBJECT_0 + i nor WAIT_ABANDONED_0 + i for any i < 1, nor
WAIT_TIMEOUT, nor WAIT_FAILED. -/
theorem c10_out_of_family_result_cex :
    (InternalWaitForMultipleObjectsEx badIdxEnv 1 false 100 false).dwRet = 5 ∧
    ¬ validRet 1 (InternalWaitForMultipleObjectsEx badIdxEnv 1 false 100 false).dwRet := by
  have h5 : (InternalWaitForMultipleObjectsEx badIdxEnv 1 false 100 false).dwRet = 5 := by
    decide
  refine ⟨h5, ?_⟩
  rw [h5]
  intro hv
  rcases hv with ⟨i, hi, he⟩ | ⟨i, hi, he⟩ | he | he
  · simp [WAIT_OBJECT_0] at he
    omega
  · simp [WAIT_ABANDONED_0] at he
    omega
  · simp [WAIT_TIMEOUT] at he
  · simp [WAIT_FAILED] at he

/-- Claim C10 (amended): for every count in [1, 64], provided the
Synchronization Manager honors its contract of reporting an in-range
index on wakeup, the returned code is always one of WAIT_OBJECT_0 + i or
WAIT_ABANDONED_0 + i with i < count, WAIT_TIMEOUT, or WAIT_FAILED; and
for every such count the four families are pairwise disjoint, so under
that contract the outcome is unambiguously decodable.  (Without the
contract an out-of-range wakeup index propagates into the result and can
leave all four families.) -/
theorem c10_result_code_families (env : Env) (nCount : Nat) (bWaitAll : Bool)
    (t : Nat) (a : Bool)
    (h1 : 1 ≤ nCount) (h64 : nCount ≤ MAXIMUM_WAIT_OBJECTS)
    (hlen : env.objs.length = nCount)
    (hidx : 0 ≤ env.blockIdx ∧ env.blockIdx < (nCount : Int)) :
    validRet nCount (InternalWaitForMultipleObjectsEx env nCount bWaitAll t a).dwRet ∧
    (∀ i j : Nat, i < nCount → j < nCount →
      WAIT_OBJECT_0 + i ≠ WAIT_ABANDONED_0 + j ∧
      WAIT_OBJECT_0 + i ≠ WAIT_TIMEOUT ∧
      WAIT_OBJECT_0 + i ≠ WAIT_FAILED ∧
      WAIT_ABANDONED_0 + j ≠ WAIT_TIMEOUT ∧
      WAIT_ABANDONED_0 + j ≠ WAIT_FAILED ∧
      WAIT_TIMEOUT ≠ WAIT_FAILED) := by
  constructor
  · by_cases hone : nCount = 1
    · subst hone
      obtain ⟨o, hobjs⟩ : ∃ p, env.objs = [p] := by
        cases hE : env.objs with
        | nil => rw [hE] at hlen; simp at hlen
        | cons p tl =>
          cases tl with
          | nil => exact ⟨p, rfl⟩
          | cons q tl2 => rw [hE] at hlen; simp at hlen
      have hidx' : 0 ≤ env.blockIdx ∧ env.blockIdx < 1 := by
        obtain ⟨ha', hb'⟩ := hidx
        constructor
        · exact ha'
        · omega
      by_cases hres : env.resolveErr = 0
      · by_cases hctl : env.getCtrlsErr = 0
        · cases ha : a
          · rw [wait_count_one env bWaitAll t hres hctl]
            exact waitAfterControllers_one_valid env o t hobjs hidx'
          · rw [wait_count_one_alertable env bWaitAll t hres hctl]
            exact validRet_failed 1
        · rw [wait_one_ctrl_err env bWaitAll t a hres hctl]
          exact validRet_failed 1
      · rw [wait_one_resolve_err env bWaitAll t a hres]
        exact validRet_failed 1
    · rw [wait_ne_one_failed env nCount bWaitAll t a hone]
      exact validRet_failed nCount
  · intro i j hi hj
    have h64' : nCount ≤ 64 := h64
    simp only [WAIT_OBJECT_0, WAIT_ABANDONED_0, WAIT_TIMEOUT, WAIT_FAILED]
    omega

theorem c10_result_code_families_witness :
    1 ≤ 1 ∧ 1 ≤ MAXIMUM_WAIT_OBJECTS ∧ (envOf [sigObj]).objs.length = 1 ∧
    (0 ≤ (envOf [sigObj]).blockIdx ∧ (envOf [sigObj]).blockIdx < (1 : Int)) ∧
    validRet 1 (InternalWaitForMultipleObjectsEx (envOf [sigObj]) 1 false 100 false).dwRet :=
  ⟨by decide, by decide, by decide, by decide,
   (c10_result_code_families (envOf [sigObj]) 1 false 100 false
      (by decide) (by decide) (by decide) (by decide)).1⟩
